import Mathlib

/-!
# Verification of the `blair_mountain` `union!` macro (src/src/lib.rs)

The crate exports one macro, `union!`, which expands a declarative description of a
union (an ordered list of named, typed members) into two mutually exclusive
implementations selected by the build profile:

* checked profile (`#[cfg(debug_assertions)]`, lib.rs lines 63-113): the inner
  representation `[<$name Inner>]` is an *enum* with one case per member; every
  accessor matches on the discriminant and panics with "unexpected union member"
  on a wrong-variant access;
* unchecked profile (`#[cfg(not(debug_assertions))]`, lib.rs lines 115-155): the
  inner representation is a raw Rust *union* with one field per member over the same
  storage; accessors reinterpret the storage with no check, and a wrong-variant
  access is undefined behavior.

The outward wrapper `$name` (lines 157-166) is a `#[repr(transparent)]` single-field
struct around the inner representation, so we identify an instance with its inner
value.

Shallow embedding used here. A declared union with `n` members whose types are
`T 0, ..., T (n-1)` is modelled by a type family `T : Fin n → Type`. Both profiles
act on the state type `Store n T := Σ i, T i`:

* for the checked profile this *is* the generated enum (a tagged sum: the active
  case index plus its payload), and the accessors' `match` is a decidable test of
  the discriminant, with the panic modelled as `Except.error "unexpected union
  member"`;
* for the unchecked profile the generated union itself stores untyped overlapping
  bytes with no tag; its defined-behavior semantics in Rust is "reading the field
  last written returns the value written; reading any other field is undefined
  behavior".  We therefore model the unchecked state by the ghost information that
  semantics depends on — the last-written field and the value written — and model
  any access whose behavior is undefined (a wrong-variant read) as `none`.
  Writes to a union field (`new_`, `set_`) are always defined and are total.

Methods taking `&mut self` are modelled by explicit state passing; `into_<m>`
takes `self` by value in the source, so its model consumes the state and returns
only the payload. The per-member generated functions `new_<m>`, `get_<m>`,
`get_<m>_mut`, `set_<m>`, `into_<m>` become `new_m i`, `get_m i`, `get_m_mut i`,
`set_m i`, `into_m i` with the member `i : Fin n` as an index.
-/

namespace BlairMountain

/-- The state of a union instance: the active (checked) / last-written (unchecked)
member together with its payload.  For the checked profile this is literally the
generated `[<$name Inner>]` enum; for the unchecked profile it is the ghost state
determining which accesses have defined behavior. -/
abbrev Store (n : Nat) (T : Fin n → Type) : Type := Σ i : Fin n, T i

namespace Checked

variable {n : Nat} {T : Fin n → Type}

/-- `new_<m>(val)` (lib.rs 83-85): `Self([<$name Inner>]::$member(val))`. -/
def new_m (i : Fin n) (val : T i) : Store n T := ⟨i, val⟩

/-- `get_<m>(&self)` (lib.rs 87-92): match on the inner enum; return the payload if
the active case is `$member`, else `panic!("unexpected union member")`. -/
def get_m (i : Fin n) (u : Store n T) : Except String (T i) :=
  if h : u.1 = i then .ok (h ▸ u.2) else .error "unexpected union member"

/-- `get_<m>_mut(&mut self)` (lib.rs 94-99), read aspect: the value the returned
mutable reference points at (same match and panic as `get_<m>`). -/
def get_m_mut (i : Fin n) (u : Store n T) : Except String (T i) :=
  if h : u.1 = i then .ok (h ▸ u.2) else .error "unexpected union member"

/-- `get_<m>_mut(&mut self)` (lib.rs 94-99), write aspect: obtain the mutable
reference to the payload of case `$member` and write `w` through it.  The match
panics when the active case is not `$member`; on success the payload is replaced. -/
def get_m_mut_write (i : Fin n) (u : Store n T) (w : T i) : Except String (Store n T) :=
  if _ : u.1 = i then .ok ⟨i, w⟩ else .error "unexpected union member"

/-- `set_<m>(&mut self, new)` (lib.rs 101-103): `self.0 = [<$name Inner>]::$member(new)`
— the whole inner value is replaced unconditionally; the previous state is not
inspected and there is no panic path. -/
def set_m (i : Fin n) (_u : Store n T) (new : T i) : Store n T := ⟨i, new⟩

/-- `into_<m>(self)` (lib.rs 105-110): match on the inner enum, moving the payload
out if the active case is `$member`, else `panic!("unexpected union member")`.
`self` is taken by value, so the model consumes the state and returns only the
payload. -/
def into_m (i : Fin n) (u : Store n T) : Except String (T i) :=
  if h : u.1 = i then .ok (h ▸ u.2) else .error "unexpected union member"

/-- `get_<m>(&self)` with the state at completion or abort made explicit.  The
source's match (lib.rs 88-91) reads `&self.0` and writes nothing on either arm, so
both outcomes carry the entry state unchanged; the error case records the state the
instance has at the moment of the panic. -/
def get_m_st (i : Fin n) (u : Store n T) :
    Except (String × Store n T) (T i × Store n T) :=
  if h : u.1 = i then .ok (h ▸ u.2, u) else .error ("unexpected union member", u)

/-- `get_<m>_mut(&mut self)` with the state at completion or abort made explicit.
The source's match (lib.rs 95-98) takes `&mut self.0` but writes nothing before
returning or panicking, so both outcomes carry the entry state unchanged. -/
def get_m_mut_st (i : Fin n) (u : Store n T) :
    Except (String × Store n T) (T i × Store n T) :=
  if h : u.1 = i then .ok (h ▸ u.2, u) else .error ("unexpected union member", u)

end Checked

namespace Unchecked

variable {n : Nat} {T : Fin n → Type}

/-- `new_<m>(val)` (lib.rs 132-136): `Self([<$name Inner>] { $member: val })` —
writes field `$member` of the union. -/
def new_m (i : Fin n) (val : T i) : Store n T := ⟨i, val⟩

/-- `get_<m>(&self)` (lib.rs 138-140): `&(self.0).$member` reinterprets the shared
storage as member `i` with no check.  Defined behavior (the written value) exactly
when `i` is the last-written field; otherwise undefined behavior, modelled `none`. -/
def get_m (i : Fin n) (u : Store n T) : Option (T i) :=
  if h : u.1 = i then some (h ▸ u.2) else none

/-- `get_<m>_mut(&mut self)` (lib.rs 142-144), read aspect: the value behind
`&mut (self.0).$member`; reading it is defined only for the last-written field. -/
def get_m_mut (i : Fin n) (u : Store n T) : Option (T i) :=
  if h : u.1 = i then some (h ▸ u.2) else none

/-- `get_<m>_mut(&mut self)` (lib.rs 142-144), write aspect: write `w` through
`&mut (self.0).$member`, making `i` the last-written field.  Modelled conservatively:
defined when `i` was the active field (the only case the crate's contract permits). -/
def get_m_mut_write (i : Fin n) (u : Store n T) (w : T i) : Option (Store n T) :=
  if _ : u.1 = i then some ⟨i, w⟩ else none

/-- `set_<m>(&mut self, new)` (lib.rs 146-148): `(self.0).$member = new` — a plain
union-field write, always defined, overwriting the storage unconditionally. -/
def set_m (i : Fin n) (_u : Store n T) (new : T i) : Store n T := ⟨i, new⟩

/-- `into_<m>(self)` (lib.rs 150-152): `(self.0).$member` moves the storage out
reinterpreted as member `i`, consuming `self`; defined behavior exactly when `i` is
the last-written field. -/
def into_m (i : Fin n) (u : Store n T) : Option (T i) :=
  if h : u.1 = i then some (h ▸ u.2) else none

end Unchecked

/-! ## Trace semantics shared by both profiles

A run is a start (`new_<m>`) followed by a list of operations, each acting through
the generated API; observations are the values returned by the read accessors. -/

/-- One API call after construction: a read (`get_<m>`), a write through the mutable
accessor (`get_<m>_mut` followed by a store through the reference), or `set_<m>`. -/
inductive Op (n : Nat) (T : Fin n → Type) : Type where
  | get (i : Fin n)
  | getMutWrite (i : Fin n) (w : T i)
  | set (i : Fin n) (v : T i)

variable {n : Nat} {T : Fin n → Type}

/-- Run a list of operations against the checked expansion, collecting the
observations of the `get` operations and the final state; a wrong-variant access
panics, aborting the run. -/
def runChecked : List (Op n T) → Store n T → Except String (List (Store n T) × Store n T)
  | [], u => .ok ([], u)
  | .get i :: rest, u =>
      (Checked.get_m i u).bind fun v =>
        (runChecked rest u).map fun p => (⟨i, v⟩ :: p.1, p.2)
  | .getMutWrite i w :: rest, u =>
      (Checked.get_m_mut_write i u w).bind fun u2 => runChecked rest u2
  | .set i v :: rest, u => runChecked rest (Checked.set_m i u v)

/-- Run a list of operations against the unchecked expansion; a wrong-variant access
is undefined behavior, modelled as `none`. -/
def runUnchecked : List (Op n T) → Store n T → Option (List (Store n T) × Store n T)
  | [], u => some ([], u)
  | .get i :: rest, u =>
      (Unchecked.get_m i u).bind fun v =>
        (runUnchecked rest u).map fun p => (⟨i, v⟩ :: p.1, p.2)
  | .getMutWrite i w :: rest, u =>
      (Unchecked.get_m_mut_write i u w).bind fun u2 => runUnchecked rest u2
  | .set i v :: rest, u => runUnchecked rest (Unchecked.set_m i u v)

/-- Valid-variant discipline: every `get`/`getMutWrite` targets the member most
recently established by construction or `set`; `set` is always permitted and makes
its member active. -/
def validOps : List (Op n T) → Fin n → Bool
  | [], _ => true
  | .get i :: rest, cur => i == cur && validOps rest cur
  | .getMutWrite i _ :: rest, cur => i == cur && validOps rest i
  | .set i _ :: rest, _ => validOps rest i

/-! ## Name synthesis (`paste`) -/

/-- The external identifier-concatenation collaborator (`pub use paste::item as
paste_item`, lib.rs 8): given an ordered sequence of identifier fragments, return
the single identifier formed by their concatenation. -/
def paste_item (fragments : List String) : String := String.join fragments

/-- The inner-representation name synthesized by the macro, `[<$name Inner>]`
(lib.rs 66, 117, 161): the declared name with the fixed suffix `Inner` appended. -/
def innerName (name : String) : String := paste_item [name, "Inner"]

/-! ## The concrete `example::Example` union (lib.rs 173-179)

```
pub union Example { pub one: &'static str, pub two: u32, private: f32, }
```

Member `0` is `one` (static strings modelled as `String`), member `1` is `two`
(`u32`; the crate only stores and returns values, no arithmetic, so `Nat` is an
exact model), member `2` is `private` (`f32`, modelled `Float`; never accessed in
the scenarios below). -/
def ExampleTys : Fin 3 → Type := ![String, Nat, Float]

/-- A valid-variant operation sequence over `Example`, following the crate's own
test `accessors_simple` (lib.rs 195-218). -/
def exOps : List (Op 3 ExampleTys) :=
  [.get 0, .set 1 (10 : Nat), .get 1, .getMutWrite 1 (11 : Nat)]

/-! ## Helper lemmas -/

theorem ok_bind {ε α β : Type} (v : α) (f : α → Except ε β) :
    (Except.ok (ε := ε) v).bind f = f v := rfl

theorem ok_map {ε α β : Type} (v : α) (f : α → β) :
    (Except.ok (ε := ε) v).map f = .ok (f v) := rfl

theorem some_bind {α β : Type} (v : α) (f : α → Option β) :
    (Option.some v).bind f = f v := rfl

theorem some_map {α β : Type} (v : α) (f : α → β) :
    (Option.some v).map f = some (f v) := rfl

theorem cget_self (u : Store n T) : Checked.get_m u.1 u = .ok u.2 := by
  unfold Checked.get_m; exact dif_pos rfl

theorem cget_mut_self (u : Store n T) : Checked.get_m_mut u.1 u = .ok u.2 := by
  unfold Checked.get_m_mut; exact dif_pos rfl

theorem cget_mut_write_self (u : Store n T) (w : T u.1) :
    Checked.get_m_mut_write u.1 u w = .ok ⟨u.1, w⟩ := by
  unfold Checked.get_m_mut_write; exact dif_pos rfl

theorem cinto_self (u : Store n T) : Checked.into_m u.1 u = .ok u.2 := by
  unfold Checked.into_m; exact dif_pos rfl

theorem uget_self (u : Store n T) : Unchecked.get_m u.1 u = some u.2 := by
  unfold Unchecked.get_m; exact dif_pos rfl

theorem uget_mut_self (u : Store n T) : Unchecked.get_m_mut u.1 u = some u.2 := by
  unfold Unchecked.get_m_mut; exact dif_pos rfl

theorem uget_mut_write_self (u : Store n T) (w : T u.1) :
    Unchecked.get_m_mut_write u.1 u w = some ⟨u.1, w⟩ := by
  unfold Unchecked.get_m_mut_write; exact dif_pos rfl

theorem uinto_self (u : Store n T) : Unchecked.into_m u.1 u = some u.2 := by
  unfold Unchecked.into_m; exact dif_pos rfl

theorem cget_ne {j : Fin n} {u : Store n T} (h : u.1 ≠ j) :
    Checked.get_m j u = .error "unexpected union member" := by
  unfold Checked.get_m; exact dif_neg h

theorem cget_mut_ne {j : Fin n} {u : Store n T} (h : u.1 ≠ j) :
    Checked.get_m_mut j u = .error "unexpected union member" := by
  unfold Checked.get_m_mut; exact dif_neg h

theorem cinto_ne {j : Fin n} {u : Store n T} (h : u.1 ≠ j) :
    Checked.into_m j u = .error "unexpected union member" := by
  unfold Checked.into_m; exact dif_neg h

/-! ## Claim theorems -/

/-- C1: in the checked (debug) profile, for any two distinct members `i ≠ j`,
constructing with `new_<i>(v)` and then calling `get_<j>()`, `get_<j>_mut()`, or
`into_<j>()` aborts with the diagnostic "unexpected union member". -/
theorem wrong_member_access_panics (i j : Fin n) (hne : i ≠ j) (v : T i) :
    Checked.get_m j (Checked.new_m i v) = .error "unexpected union member" ∧
    Checked.get_m_mut j (Checked.new_m i v) = .error "unexpected union member" ∧
    Checked.into_m j (Checked.new_m i v) = .error "unexpected union member" :=
  ⟨cget_ne hne, cget_mut_ne hne, cinto_ne hne⟩

/-- C1 witness: over `Example`, `new_one("asdfs")` then `get_two` / `get_two_mut` /
`into_two` all abort with "unexpected union member". -/
theorem wrong_member_access_panics_witness :
    (0 : Fin 3) ≠ 1 ∧
    (Checked.get_m 1 (Checked.new_m (T := ExampleTys) 0 "asdfs")
        = .error "unexpected union member" ∧
      Checked.get_m_mut 1 (Checked.new_m (T := ExampleTys) 0 "asdfs")
        = .error "unexpected union member" ∧
      Checked.into_m 1 (Checked.new_m (T := ExampleTys) 0 "asdfs")
        = .error "unexpected union member") :=
  ⟨by decide, wrong_member_access_panics (T := ExampleTys) 0 1 (by decide) "asdfs"⟩

/-- C2: for every member `m` and value `v` of its type, `new_<m>(v)` followed by
`get_<m>()` returns `v`, in both the checked and the unchecked profile. -/
theorem new_then_get (m : Fin n) (v : T m) :
    Checked.get_m m (Checked.new_m m v) = .ok v ∧
    Unchecked.get_m m (Unchecked.new_m m v) = some v :=
  ⟨cget_self ⟨m, v⟩, uget_self ⟨m, v⟩⟩

/-- C3: `new_<m>(v)` then `set_<m>(v2)` then `get_<m>()` returns `v2` in both
profiles; moreover `set_<m>` is unconditional — it is a total function whose result
does not depend on the prior state at all (in particular it never aborts). -/
theorem new_set_get (m : Fin n) (v v2 : T m) :
    Checked.get_m m (Checked.set_m m (Checked.new_m m v) v2) = .ok v2 ∧
    Unchecked.get_m m (Unchecked.set_m m (Unchecked.new_m m v) v2) = some v2 ∧
    (∀ u u2 : Store n T,
      Checked.set_m m u v2 = Checked.set_m m u2 v2 ∧
      Unchecked.set_m m u v2 = Unchecked.set_m m u2 v2) :=
  ⟨cget_self ⟨m, v2⟩, uget_self ⟨m, v2⟩, fun _ _ => ⟨rfl, rfl⟩⟩

/-- C4: on every valid-variant call sequence (each `get`/`get_mut`/`into` targets
the member most recently established by `new_`/`set_`), the checked and the
unchecked expansions succeed and produce the identical observations and the
identical final state, and a final `into_<m>` of the active member extracts the same
payload in both. -/
theorem profiles_equiv_on_valid_traces (ops : List (Op n T)) :
    ∀ u : Store n T, validOps ops u.1 = true →
      ∃ obs fin,
        runChecked ops u = .ok (obs, fin) ∧
        runUnchecked ops u = some (obs, fin) ∧
        Checked.into_m fin.1 fin = .ok fin.2 ∧
        Unchecked.into_m fin.1 fin = some fin.2 := by
  induction ops with
  | nil =>
    intro u _
    exact ⟨[], u, rfl, rfl, cinto_self u, uinto_self u⟩
  | cons op rest ih =>
    intro u hv
    cases op with
    | get i =>
      simp only [validOps, Bool.and_eq_true, beq_iff_eq] at hv
      obtain ⟨hi, hrest⟩ := hv
      subst hi
      obtain ⟨obs, fin, hc, hu, hic, hiu⟩ := ih u hrest
      refine ⟨⟨u.1, u.2⟩ :: obs, fin, ?_, ?_, hic, hiu⟩
      · simp only [runChecked, cget_self, ok_bind, hc, ok_map]
      · simp only [runUnchecked, uget_self, some_bind, hu, some_map]
    | getMutWrite i w =>
      simp only [validOps, Bool.and_eq_true, beq_iff_eq] at hv
      obtain ⟨hi, hrest⟩ := hv
      subst hi
      obtain ⟨obs, fin, hc, hu, hic, hiu⟩ := ih ⟨u.1, w⟩ hrest
      refine ⟨obs, fin, ?_, ?_, hic, hiu⟩
      · simp only [runChecked, cget_mut_write_self, ok_bind]; exact hc
      · simp only [runUnchecked, uget_mut_write_self, some_bind]; exact hu
    | set i v =>
      simp only [validOps] at hv
      obtain ⟨obs, fin, hc, hu, hic, hiu⟩ := ih ⟨i, v⟩ hv
      refine ⟨obs, fin, ?_, ?_, hic, hiu⟩
      · simp only [runChecked, Checked.set_m]; exact hc
      · simp only [runUnchecked, Unchecked.set_m]; exact hu

/-- C4 witness: the `accessors_simple`-style trace over `Example` starting from
`new_one("asdfs")` is valid, and both profiles run it to the same result. -/
theorem profiles_equiv_on_valid_traces_witness :
    validOps exOps (⟨0, "asdfs"⟩ : Store 3 ExampleTys).1 = true ∧
    ∃ obs fin,
      runChecked exOps ⟨(0 : Fin 3), ("asdfs" : ExampleTys 0)⟩ = .ok (obs, fin) ∧
      runUnchecked exOps ⟨(0 : Fin 3), ("asdfs" : ExampleTys 0)⟩ = some (obs, fin) ∧
      Checked.into_m fin.1 fin = .ok fin.2 ∧
      Unchecked.into_m fin.1 fin = some fin.2 :=
  ⟨rfl, profiles_equiv_on_valid_traces exOps ⟨0, "asdfs"⟩ rfl⟩

/-- C5: checked-profile invariant — after a construction and any sequence of
`set_` operations, the inner enum's discriminant is exactly the member of the most
recent call and its payload is the value passed to that call.  A call is a pair
`⟨member, value⟩`; the state after the whole sequence is the last call itself. -/
theorem active_variant_tracks_last_call (first : Store n T) (rest : List (Store n T)) :
    rest.foldl (fun u p => Checked.set_m p.1 u p.2) (Checked.new_m first.1 first.2)
      = rest.getLastD first := by
  induction rest generalizing first with
  | nil => rfl
  | cons p rest ih =>
    rw [List.foldl_cons, List.getLastD_cons]
    exact ih p

/-- C6: `into_<m>()` on an instance whose active variant is `m` returns the stored
payload, in both profiles; the instance is consumed — in the source `self` is taken
by value, and accordingly the model returns only the payload and no successor
state, the impossibility of further use being enforced by the host language's move
discipline. -/
theorem into_active_member_returns_payload (u : Store n T) :
    Checked.into_m u.1 u = .ok u.2 ∧ Unchecked.into_m u.1 u = some u.2 :=
  ⟨cinto_self u, uinto_self u⟩

/-- C7: mutation round-trip — on an instance whose active variant is `m`, writing
`w` through the reference returned by `get_<m>_mut()` succeeds, and a subsequent
`get_<m>()` returns `w`, in both profiles. -/
theorem get_mut_write_roundtrip (m : Fin n) (u : Store n T) (h : u.1 = m) (w : T m) :
    ∃ u2 : Store n T,
      Checked.get_m_mut_write m u w = .ok u2 ∧
      Checked.get_m m u2 = .ok w ∧
      Unchecked.get_m_mut_write m u w = some u2 ∧
      Unchecked.get_m m u2 = some w := by
  subst h
  exact ⟨⟨u.1, w⟩, cget_mut_write_self u w, cget_self ⟨u.1, w⟩,
    uget_mut_write_self u w, uget_self ⟨u.1, w⟩⟩

/-- C7 witness: over `Example`, an instance holding `two = 1234` mutated to `101`
through `get_two_mut` reads back `101` in both profiles. -/
theorem get_mut_write_roundtrip_witness :
    (⟨1, (1234 : Nat)⟩ : Store 3 ExampleTys).1 = 1 ∧
    ∃ u2 : Store 3 ExampleTys,
      Checked.get_m_mut_write 1 ⟨1, (1234 : Nat)⟩ (101 : Nat) = .ok u2 ∧
      Checked.get_m 1 u2 = .ok (101 : Nat) ∧
      Unchecked.get_m_mut_write 1 ⟨1, (1234 : Nat)⟩ (101 : Nat) = some u2 ∧
      Unchecked.get_m 1 u2 = some (101 : Nat) :=
  ⟨rfl, get_mut_write_roundtrip (T := ExampleTys) 1 ⟨1, (1234 : Nat)⟩ rfl (101 : Nat)⟩

/-- C8: the concrete `Example` scenario — `new_one("asdfs")` then `get_one()` is
`"asdfs"` (both profiles); after `set_two(10)`, `get_two()` is `10` (both
profiles); and in the checked profile the subsequent `get_one()` aborts with
"unexpected union member": `set_two` after `new_one` made `two` the active variant
and `one`-access a misuse. -/
theorem example_concrete_scenario :
    Checked.get_m 0 (Checked.new_m (T := ExampleTys) 0 "asdfs") = .ok "asdfs" ∧
    Unchecked.get_m 0 (Unchecked.new_m (T := ExampleTys) 0 "asdfs") = some "asdfs" ∧
    Checked.get_m 1 (Checked.set_m 1 (Checked.new_m (T := ExampleTys) 0 "asdfs") (10 : Nat))
      = .ok (10 : Nat) ∧
    Unchecked.get_m 1
        (Unchecked.set_m 1 (Unchecked.new_m (T := ExampleTys) 0 "asdfs") (10 : Nat))
      = some (10 : Nat) ∧
    Checked.get_m 0 (Checked.set_m 1 (Checked.new_m (T := ExampleTys) 0 "asdfs") (10 : Nat))
      = .error "unexpected union member" :=
  ⟨rfl, rfl, rfl, rfl, rfl⟩

/-- C9 counterexample: the synthesized inner-representation name does not avoid
collision with user-chosen names.  `innerName` is total concatenation with the fixed
suffix `Inner`, and `ExampleInner` is itself a perfectly legal user-chosen
identifier: a user declaring a union named `ExampleInner` next to one named
`Example` collides with the generated name.  Concretely,
`innerName "Example" = "ExampleInner"`, refuting "for every declared name and every
user-chosen name, the synthesized name differs from the user-chosen one". -/
theorem innerName_collides_with_user_name :
    innerName "Example" = "ExampleInner" ∧
    ¬ (∀ declared userChosen : String, innerName declared ≠ userChosen) :=
  ⟨by decide, fun h => h "Example" "ExampleInner" (by decide)⟩

/-- C9 (amended): the inner-representation name is synthesized deterministically as
a pure function of the declared union name — the identifier-concatenation
collaborator applied to the name and the fixed suffix `Inner` — so repeated
compilations of the same spec yield the identical generated name, and distinct
declared names yield distinct synthesized names; however nothing prevents the
synthesized name from coinciding with a name the user chooses. -/
theorem innerName_pure_function :
    (∀ s : String, innerName s = paste_item [s, "Inner"]) ∧
    (∀ s : String, innerName s = s ++ "Inner") ∧
    Function.Injective innerName := by
  refine ⟨fun s => rfl, fun s => rfl, fun s t h => ?_⟩
  have hd : s.data ++ "Inner".data = t.data ++ "Inner".data := by
    have := congrArg String.data h
    simpa [innerName, paste_item, String.join, String.data_append] using this
  exact String.ext (List.append_left_injective "Inner".data hd)

/-- C10: error atomicity of the checked accessors — a wrong-variant `get_<m>()` or
`get_<m>_mut()` panics with "unexpected union member" while the instance still has
exactly its pre-call active variant and payload: the state recorded at the abort is
the entry state, unchanged. -/
theorem checked_accessor_error_atomicity (j : Fin n) (u : Store n T) (h : u.1 ≠ j) :
    Checked.get_m_st j u = .error ("unexpected union member", u) ∧
    Checked.get_m_mut_st j u = .error ("unexpected union member", u) := by
  constructor
  · unfold Checked.get_m_st; exact dif_neg h
  · unfold Checked.get_m_mut_st; exact dif_neg h

/-- C10 witness: over `Example`, `get_two` / `get_two_mut` on an instance holding
`one = "asdfs"` abort, with the instance still holding exactly `one = "asdfs"`. -/
theorem checked_accessor_error_atomicity_witness :
    (⟨0, "asdfs"⟩ : Store 3 ExampleTys).1 ≠ 1 ∧
    (Checked.get_m_st 1 (⟨0, "asdfs"⟩ : Store 3 ExampleTys)
        = .error ("unexpected union member", ⟨0, "asdfs"⟩) ∧
      Checked.get_m_mut_st 1 (⟨0, "asdfs"⟩ : Store 3 ExampleTys)
        = .error ("unexpected union member", ⟨0, "asdfs"⟩)) :=
  ⟨by decide, checked_accessor_error_atomicity (T := ExampleTys) 1 ⟨0, "asdfs"⟩ (by decide)⟩

end BlairMountain
